import Mathlib

/-!
Shallow embedding of `src/examples/wholesome/renderer.rs` (the `Renderer`
of the wholesome example of `egui_winit_vulkano`).

The embedding keeps the fields of `struct Renderer` that the verified
properties are about: the swapchain image-view list `final_images` and the
scene-target list `scene_images` (tracked by their lengths, since the
properties concern counts and index bounds), `image_num`,
`recreate_swapchain`, and `previous_frame_end`.  GPU futures are embedded
symbolically as a lineage tree (`Future`), so that identity of the
carried "previous frame end" future is structural equality.

The presentation engine and the GPU driver are external collaborators
(vulkano); their per-call responses — the result of
`swapchain::acquire_next_image`, of `Swapchain::recreate().build()`, and of
each `then_signal_fence_and_flush` / `wait` — are inputs (`RenderEnv`),
ranging over the outcomes the spec's contracts allow (ok / out-of-date /
suboptimal / unsupported-dimensions / other error).  Rust `panic!`,
`expect` and out-of-bounds indexing are embedded as the `Outcome.crash`
result; `println!` logging and the drawing/present submissions are recorded
as an event trace.
-/

/-- Symbolic GPU future, recording how the handle was produced:
`now` is `sync::now(device).boxed()`, `acquire i` the future returned by
`acquire_next_image` for image `i`, `join a b` is `a.join(b)`,
`guiDrawF f i` the future returned by `gui.draw(f, final_images[i], ...)`,
`presentOn f i` is `f.then_swapchain_present(queue, swapchain, i)`, and
`fenceFlush f` is `f.then_signal_fence_and_flush()`. -/
inductive Future where
  | now : Future
  | acquire : Nat → Future
  | join : Future → Future → Future
  | guiDrawF : Future → Nat → Future
  | presentOn : Future → Nat → Future
  | fenceFlush : Future → Future
deriving DecidableEq, Repr

/-- State of `struct Renderer` (the fields the properties range over).
`final_images` and `scene_images` are the lengths of the corresponding
`Vec`s; `final_images` always equals the current swapchain's image count,
because the two are replaced together. -/
structure RendererState where
  final_images : Nat
  scene_images : Nat
  image_num : Nat
  recreate_swapchain : Bool
  previous_frame_end : Option Future
deriving DecidableEq, Repr

/-- Result of `swapchain::acquire_next_image(swap_chain, None)`:
`ok i suboptimal` on success, `outOfDate` for `AcquireError::OutOfDate`,
`otherErr` for any other `AcquireError` (the code panics on it). -/
inductive AcquireResult where
  | ok : Nat → Bool → AcquireResult
  | outOfDate : AcquireResult
  | otherErr : AcquireResult
deriving DecidableEq, Repr

/-- Result of `swap_chain.recreate().dimensions(d).build()`:
`ok n` on success, where `n` is the image count of the new swapchain
(the spec's Swapchain Manager contract says dependents must treat the
count as potentially changed by a recreation);
`unsupportedDimensions` for `SwapchainCreationError::UnsupportedDimensions`;
`otherErr` for any other creation error (the code panics on it). -/
inductive RecreateResult where
  | ok : Nat → RecreateResult
  | unsupportedDimensions : RecreateResult
  | otherErr : RecreateResult
deriving DecidableEq, Repr

/-- Result of the final `then_signal_fence_and_flush()` in `finish`. -/
inductive FlushResult where
  | ok : FlushResult
  | outOfDate : FlushResult
  | otherError : FlushResult
deriving DecidableEq, Repr

/-- The `println!` messages the renderer can emit. -/
inductive LogMsg where
  | sceneWaitErr : LogMsg
  | finishWaitErr : LogMsg
  | flushErr : LogMsg
deriving DecidableEq, Repr

/-- Observable per-frame events, in program order:
`scenePass i dep` — the frame system begins the scene pass on
`scene_images[i]` with starting dependency `dep`;
`sceneWait` — the synchronous `wait` on the scene pass's fence;
`guiDraw i dep` — `gui.draw(dep, final_images[i], clear)` is invoked;
`presentEv i` — the present of image `i` is submitted (successful flush);
`logged m` — a `println!`. -/
inductive Event where
  | scenePass : Nat → Future → Event
  | sceneWait : Event
  | guiDraw : Nat → Future → Event
  | presentEv : Nat → Event
  | logged : LogMsg → Event
deriving DecidableEq, Repr

/-- Whether the render call returned normally or the process panicked. -/
inductive Outcome where
  | ok : Outcome
  | crash : Outcome
deriving DecidableEq, Repr

/-- Device/driver responses consumed by one `render` call. -/
structure RenderEnv where
  recreateRes : RecreateResult
  acquireRes : AcquireResult
  sceneFlushOk : Bool
  sceneWaitOk : Bool
  finishFlushRes : FlushResult
  finishWaitOk : Bool
deriving DecidableEq, Repr

/-- `Renderer::new`: the initial state, for a swapchain created with `n`
images.  `create_scene_images` allocates one scene target per swapchain
image, `previous_frame_end` starts as `Some(sync::now(device).boxed())`,
and `recreate_swapchain` starts `false`. -/
def Renderer.new (n : Nat) : RendererState :=
  { final_images := n
    scene_images := n
    image_num := 0
    recreate_swapchain := false
    previous_frame_end := some Future.now }

/-- `Renderer::resize`: sets `recreate_swapchain = true` and nothing else. -/
def Renderer.resize (s : RendererState) : RendererState :=
  { s with recreate_swapchain := true }

/-- `Renderer::recreate_swapchain`: on success replaces the swapchain and
`final_images` (count `n`) and clears the flag; on
`UnsupportedDimensions` returns early leaving the state untouched; any
other error panics.  Note `scene_images` is not touched. -/
def Renderer.recreate_swapchain (s : RendererState) (r : RecreateResult) :
    RendererState × Outcome :=
  match r with
  | RecreateResult.ok n =>
      ({ s with final_images := n, recreate_swapchain := false }, Outcome.ok)
  | RecreateResult.unsupportedDimensions => (s, Outcome.ok)
  | RecreateResult.otherErr => (s, Outcome.crash)

/-- `Renderer::render_scene`: runs the frame system's pass sequence on
`scene_images[image_num]` with a fresh `sync::now` dependency, then
`then_signal_fence_and_flush().expect(..)` (panic on flush error) and
`wait(None)` (error only logged).  Out-of-bounds indexing panics. -/
def Renderer.render_scene (s : RendererState) (env : RenderEnv) :
    List Event × Outcome :=
  if s.image_num < s.scene_images then
    if env.sceneFlushOk then
      if env.sceneWaitOk then
        ([Event.scenePass s.image_num Future.now, Event.sceneWait], Outcome.ok)
      else
        ([Event.scenePass s.image_num Future.now, Event.sceneWait,
          Event.logged LogMsg.sceneWaitErr], Outcome.ok)
    else
      ([Event.scenePass s.image_num Future.now], Outcome.crash)
  else ([], Outcome.crash)

/-- `Renderer::finish`: chains present + fence/flush onto `afterFuture`.
On flush success, waits (wait error only logged) and stores the flushed
future as `previous_frame_end`; on `FlushError::OutOfDate`, sets the
recreate flag and stores a fresh `sync::now`; on any other flush error,
logs it and stores a fresh `sync::now`. -/
def Renderer.finish (s : RendererState) (afterFuture : Future) (image_num : Nat)
    (env : RenderEnv) : RendererState × List Event :=
  match env.finishFlushRes with
  | FlushResult.ok =>
      let fut := Future.fenceFlush (Future.presentOn afterFuture image_num)
      ({ s with previous_frame_end := some fut },
        Event.presentEv image_num ::
          (if env.finishWaitOk then [] else [Event.logged LogMsg.finishWaitErr]))
  | FlushResult.outOfDate =>
      ({ s with recreate_swapchain := true, previous_frame_end := some Future.now },
        [])
  | FlushResult.otherError =>
      ({ s with previous_frame_end := some Future.now },
        [Event.logged LogMsg.flushErr])

/-- The part of `Renderer::render` from `acquire_next_image` onward
(everything after the conditional `recreate_swapchain()` call). -/
def Renderer.renderBody (s : RendererState) (env : RenderEnv) :
    RendererState × List Event × Outcome :=
  match env.acquireRes with
  | AcquireResult.outOfDate =>
      ({ s with recreate_swapchain := true }, ([], Outcome.ok))
  | AcquireResult.otherErr => (s, ([], Outcome.crash))
  | AcquireResult.ok i sub =>
      let s2 := if sub then { s with recreate_swapchain := true } else s
      let s3 := { s2 with image_num := i }
      match Renderer.render_scene s3 env with
      | (sceneEvs, Outcome.crash) => (s3, (sceneEvs, Outcome.crash))
      | (sceneEvs, Outcome.ok) =>
          match s3.previous_frame_end with
          | none => (s3, (sceneEvs, Outcome.crash))
          | some prev =>
              let s4 := { s3 with previous_frame_end := none }
              if i < s4.final_images then
                let joined := Future.join prev (Future.acquire i)
                match Renderer.finish s4 (Future.guiDrawF joined i) i env with
                | (s5, finEvs) =>
                    (s5, (sceneEvs ++ Event.guiDraw i joined :: finEvs,
                      Outcome.ok))
              else (s4, (sceneEvs, Outcome.crash))

/-- `Renderer::render`: recreate the swapchain if flagged, then acquire,
render the scene, composite the UI, and finish. -/
def Renderer.render (s : RendererState) (env : RenderEnv) :
    RendererState × List Event × Outcome :=
  if s.recreate_swapchain then
    match Renderer.recreate_swapchain s env.recreateRes with
    | (s1, Outcome.ok) => Renderer.renderBody s1 env
    | (s1, Outcome.crash) => (s1, ([], Outcome.crash))
  else Renderer.renderBody s env

/-- A device environment in which every call succeeds: recreation (if it
runs) yields a swapchain of `n` images, acquisition returns image `i`
without the suboptimal flag, and every flush and wait succeeds. -/
def happyEnv (n i : Nat) : RenderEnv :=
  { recreateRes := RecreateResult.ok n
    acquireRes := AcquireResult.ok i false
    sceneFlushOk := true
    sceneWaitOk := true
    finishFlushRes := FlushResult.ok
    finishWaitOk := true }

section Helpers

/-- No operation inside a render call ever changes the scene-target count:
`create_scene_images` is called only from `new` and the dead
`resize_scene_view`. -/
lemma renderBody_scene_images (s : RendererState) (env : RenderEnv) :
    (Renderer.renderBody s env).1.scene_images = s.scene_images := by
  unfold Renderer.renderBody Renderer.render_scene Renderer.finish
  repeat' split
  all_goals simp_all
  all_goals (repeat' split)
  all_goals simp_all

/-- No operation inside `renderBody` changes the swapchain image count:
`final_images` is only replaced by `recreate_swapchain`. -/
lemma renderBody_final_images (s : RendererState) (env : RenderEnv) :
    (Renderer.renderBody s env).1.final_images = s.final_images := by
  unfold Renderer.renderBody Renderer.render_scene Renderer.finish
  repeat' split
  all_goals simp_all
  all_goals (repeat' split)
  all_goals simp_all

/-- Nothing after the acquire step ever clears the recreate flag: only
`recreate_swapchain` (on success) sets it back to `false`. -/
lemma renderBody_keeps_stale (s : RendererState) (env : RenderEnv)
    (h : s.recreate_swapchain = true) :
    (Renderer.renderBody s env).1.recreate_swapchain = true := by
  unfold Renderer.renderBody Renderer.render_scene Renderer.finish
  repeat' split
  all_goals simp_all
  all_goals (repeat' split)
  all_goals simp_all

/-- A render call entered with the flag clear skips the recreation step. -/
lemma render_of_not_stale (s : RendererState) (env : RenderEnv)
    (h : s.recreate_swapchain = false) :
    Renderer.render s env = Renderer.renderBody s env := by
  unfold Renderer.render
  rw [h]
  simp

/-- A render call entered stale whose recreation succeeds with image count
`n` continues as a body call on the updated state. -/
lemma render_of_stale_ok (s : RendererState) (env : RenderEnv) (n : Nat)
    (h1 : s.recreate_swapchain = true) (h2 : env.recreateRes = RecreateResult.ok n) :
    Renderer.render s env =
      Renderer.renderBody
        { s with final_images := n, recreate_swapchain := false } env := by
  unfold Renderer.render Renderer.recreate_swapchain
  rw [h1, h2]
  simp

/-- A render call entered stale whose recreation reports unsupported
dimensions continues as a body call on the unchanged state. -/
lemma render_of_stale_unsupported (s : RendererState) (env : RenderEnv)
    (h1 : s.recreate_swapchain = true)
    (h2 : env.recreateRes = RecreateResult.unsupportedDimensions) :
    Renderer.render s env = Renderer.renderBody s env := by
  unfold Renderer.render Renderer.recreate_swapchain
  rw [h1, h2]
  simp

/-- Any render call that returns normally is a body call on a state that
differs from the entry state at most in `final_images` and the flag. -/
lemma render_ok_elim (s : RendererState) (env : RenderEnv)
    (hok : (Renderer.render s env).2.2 = Outcome.ok) :
    ∃ s1, Renderer.render s env = Renderer.renderBody s1 env ∧
      s1.previous_frame_end = s.previous_frame_end ∧
      s1.scene_images = s.scene_images := by
  unfold Renderer.render Renderer.recreate_swapchain at hok ⊢
  cases h : s.recreate_swapchain with
  | false => exact ⟨s, by simp [h], rfl, rfl⟩
  | true =>
      cases h2 : env.recreateRes with
      | ok n =>
          exact ⟨{ s with final_images := n, recreate_swapchain := false },
            by simp [h, h2], rfl, rfl⟩
      | unsupportedDimensions => exact ⟨s, by simp [h, h2], rfl, rfl⟩
      | otherErr => simp [h, h2] at hok

/-- Inversion: if the acquire step succeeded with index `i` and the whole
body returned normally, then every panic source was avoided: both indexed
accesses were in bounds, the scene-pass flush succeeded, and
`previous_frame_end` was non-empty at the `take().unwrap()`. -/
lemma renderBody_ok_conditions (s : RendererState) (env : RenderEnv) (i : Nat)
    (sub : Bool) (hacq : env.acquireRes = AcquireResult.ok i sub)
    (hok : (Renderer.renderBody s env).2.2 = Outcome.ok) :
    i < s.scene_images ∧ i < s.final_images ∧ env.sceneFlushOk = true ∧
      s.previous_frame_end.isSome = true := by
  by_cases h1 : i < s.scene_images <;> by_cases h2 : i < s.final_images <;>
    cases h3 : env.sceneFlushOk <;> cases sub <;> cases h4 : env.sceneWaitOk <;>
    cases h5 : env.finishFlushRes <;> cases hp : s.previous_frame_end <;>
    simp_all [Renderer.renderBody, Renderer.render_scene, Renderer.finish, hacq]

/-- Shape of a drawing frame: when the acquire step succeeded with index
`i`, both index accesses are in bounds, the scene flush succeeds, and a
previous-frame-end future `p` is carried, the body returns normally; the
trace starts with the scene pass on `scene_images[i]` (dependency: a fresh
no-op future) followed by the synchronous scene wait; later the UI
compositor is handed `p.join(acquire i)` for `final_images[i]`; on a
successful final flush the present of image `i` is submitted and the
flushed future is stored as the new `previous_frame_end`; the stored
future is never `none`; and a suboptimal acquire leaves the flag set. -/
lemma renderBody_shape (s : RendererState) (env : RenderEnv) (i : Nat)
    (sub : Bool) (p : Future)
    (hacq : env.acquireRes = AcquireResult.ok i sub)
    (hprev : s.previous_frame_end = some p)
    (h1 : i < s.scene_images) (h2 : i < s.final_images)
    (h3 : env.sceneFlushOk = true) :
    (Renderer.renderBody s env).2.2 = Outcome.ok ∧
    (Renderer.renderBody s env).1.previous_frame_end.isSome = true ∧
    (sub = true → (Renderer.renderBody s env).1.recreate_swapchain = true) ∧
    (env.finishFlushRes = FlushResult.ok →
      (Renderer.renderBody s env).1.previous_frame_end =
        some (Future.fenceFlush (Future.presentOn
          (Future.guiDrawF (Future.join p (Future.acquire i)) i) i))) ∧
    ∃ tail,
      (Renderer.renderBody s env).2.1 =
        Event.scenePass i Future.now :: Event.sceneWait :: tail ∧
      Event.guiDraw i (Future.join p (Future.acquire i)) ∈ tail ∧
      (env.finishFlushRes = FlushResult.ok → Event.presentEv i ∈ tail) := by
  cases sub <;> cases h4 : env.sceneWaitOk <;> cases h5 : env.finishFlushRes <;>
    cases h6 : env.finishWaitOk <;>
    simp_all [Renderer.renderBody, Renderer.render_scene, Renderer.finish,
      hacq, hprev, h1, h2]

end Helpers

/-- Claim C9 (confirmed): calling `resize` any positive number of times
before the next render call leaves the renderer exactly as one call does,
and one call only sets `recreate_swapchain`, changing no other field. -/
theorem resize_idempotent_marks_only (s : RendererState) (n : Nat) :
    Renderer.resize^[n + 1] s = Renderer.resize s ∧
    Renderer.resize s = { s with recreate_swapchain := true } := by
  constructor
  · induction n with
    | zero => rfl
    | succ k ih =>
        rw [Function.iterate_succ_apply', ih]
        simp [Renderer.resize]
  · rfl

/-- Claim C2 (confirmed): when image acquisition reports the swapchain out
of date (and the call reaches acquisition, i.e. a pending recreation does
not itself panic on an unrelated fatal error), the render call emits no
events at all — no scene pass, no compositor call, no present — sets the
recreate flag, and returns normally. -/
theorem outdated_acquire_is_noop (s : RendererState) (env : RenderEnv)
    (hacq : env.acquireRes = AcquireResult.outOfDate)
    (hrec : s.recreate_swapchain = true → env.recreateRes ≠ RecreateResult.otherErr) :
    (Renderer.render s env).2.1 = [] ∧
    (Renderer.render s env).2.2 = Outcome.ok ∧
    (Renderer.render s env).1.recreate_swapchain = true := by
  cases hflag : s.recreate_swapchain with
  | false =>
      rw [render_of_not_stale s env hflag]
      simp [Renderer.renderBody, hacq]
  | true =>
      cases hrr : env.recreateRes with
      | ok n =>
          rw [render_of_stale_ok s env n hflag hrr]
          simp [Renderer.renderBody, hacq]
      | unsupportedDimensions =>
          rw [render_of_stale_unsupported s env hflag hrr]
          simp [Renderer.renderBody, hacq]
      | otherErr => exact absurd hrr (hrec hflag)

/-- Witness for `outdated_acquire_is_noop` at a concrete renderer and
environment. -/
theorem outdated_acquire_is_noop_witness :
    ({ happyEnv 2 0 with acquireRes := AcquireResult.outOfDate } : RenderEnv).acquireRes =
        AcquireResult.outOfDate ∧
    ((Renderer.new 2).recreate_swapchain = true →
      ({ happyEnv 2 0 with acquireRes := AcquireResult.outOfDate } : RenderEnv).recreateRes ≠
        RecreateResult.otherErr) ∧
    ((Renderer.render (Renderer.new 2)
        { happyEnv 2 0 with acquireRes := AcquireResult.outOfDate }).2.1 = [] ∧
      (Renderer.render (Renderer.new 2)
        { happyEnv 2 0 with acquireRes := AcquireResult.outOfDate }).2.2 = Outcome.ok ∧
      (Renderer.render (Renderer.new 2)
        { happyEnv 2 0 with acquireRes := AcquireResult.outOfDate }).1.recreate_swapchain = true) :=
  ⟨by decide, by decide,
    outdated_acquire_is_noop (Renderer.new 2)
      { happyEnv 2 0 with acquireRes := AcquireResult.outOfDate } (by decide) (by decide)⟩

/-- Claim C6 (confirmed): on a failed final present-and-flush, `finish`
always stores a fresh no-op future (never the failed flushed future) as
`previous_frame_end` and returns rather than panicking; out-of-date
additionally sets the recreate flag (and logs nothing), while any other
flush error is logged. -/
theorem finish_error_substitutes_noop (s : RendererState) (af : Future)
    (i : Nat) (env : RenderEnv)
    (h : env.finishFlushRes ≠ FlushResult.ok) :
    (Renderer.finish s af i env).1.previous_frame_end = some Future.now ∧
    (Renderer.finish s af i env).1.previous_frame_end ≠
      some (Future.fenceFlush (Future.presentOn af i)) ∧
    (env.finishFlushRes = FlushResult.outOfDate →
      (Renderer.finish s af i env).1.recreate_swapchain = true ∧
      (Renderer.finish s af i env).2 = []) ∧
    (env.finishFlushRes = FlushResult.otherError →
      (Renderer.finish s af i env).2 = [Event.logged LogMsg.flushErr]) := by
  cases hres : env.finishFlushRes with
  | ok => exact absurd hres h
  | outOfDate => simp [Renderer.finish, hres]
  | otherError => simp [Renderer.finish, hres]

/-- Witness for `finish_error_substitutes_noop` at a concrete state and an
out-of-date final flush. -/
theorem finish_error_substitutes_noop_witness :
    ({ happyEnv 2 0 with finishFlushRes := FlushResult.outOfDate } : RenderEnv).finishFlushRes ≠
        FlushResult.ok ∧
    ((Renderer.finish (Renderer.new 2) (Future.acquire 0) 0
        { happyEnv 2 0 with finishFlushRes := FlushResult.outOfDate }).1.previous_frame_end =
        some Future.now ∧
      (Renderer.finish (Renderer.new 2) (Future.acquire 0) 0
        { happyEnv 2 0 with finishFlushRes := FlushResult.outOfDate }).1.previous_frame_end ≠
        some (Future.fenceFlush (Future.presentOn (Future.acquire 0) 0)) ∧
      (({ happyEnv 2 0 with finishFlushRes := FlushResult.outOfDate } : RenderEnv).finishFlushRes =
          FlushResult.outOfDate →
        (Renderer.finish (Renderer.new 2) (Future.acquire 0) 0
            { happyEnv 2 0 with finishFlushRes := FlushResult.outOfDate }).1.recreate_swapchain =
          true ∧
        (Renderer.finish (Renderer.new 2) (Future.acquire 0) 0
            { happyEnv 2 0 with finishFlushRes := FlushResult.outOfDate }).2 = []) ∧
      (({ happyEnv 2 0 with finishFlushRes := FlushResult.outOfDate } : RenderEnv).finishFlushRes =
          FlushResult.otherError →
        (Renderer.finish (Renderer.new 2) (Future.acquire 0) 0
            { happyEnv 2 0 with finishFlushRes := FlushResult.outOfDate }).2 =
          [Event.logged LogMsg.flushErr])) :=
  ⟨by decide,
    finish_error_substitutes_noop (Renderer.new 2) (Future.acquire 0) 0
      { happyEnv 2 0 with finishFlushRes := FlushResult.outOfDate } (by decide)⟩

/-- Claim C7 (confirmed): in every frame that draws (acquisition succeeded
with index `i` and the call returned normally), the scene pass runs on the
scene target with the acquired index `i`, its starting dependency is a
fresh no-op future (`sync::now`, not the carried previous-frame-end
future `p`), and the synchronous wait on its completion appears in the
trace before the UI-compositing call. -/
theorem scene_pass_paired_fresh_dep_waited (s : RendererState)
    (env : RenderEnv) (i : Nat) (sub : Bool) (p : Future)
    (hacq : env.acquireRes = AcquireResult.ok i sub)
    (hprev : s.previous_frame_end = some p)
    (hok : (Renderer.render s env).2.2 = Outcome.ok) :
    ∃ tail, (Renderer.render s env).2.1 =
        Event.scenePass i Future.now :: Event.sceneWait :: tail ∧
      Event.guiDraw i (Future.join p (Future.acquire i)) ∈ tail := by
  obtain ⟨s1, he, hp1, _⟩ := render_ok_elim s env hok
  rw [he] at hok ⊢
  have hprev1 : s1.previous_frame_end = some p := hp1.trans hprev
  obtain ⟨h1, h2, h3, _⟩ := renderBody_ok_conditions s1 env i sub hacq hok
  obtain ⟨_, _, _, _, tail, ht, hm, _⟩ :=
    renderBody_shape s1 env i sub p hacq hprev1 h1 h2 h3
  exact ⟨tail, ht, hm⟩

/-- Witness for `scene_pass_paired_fresh_dep_waited` on a fully
successful frame. -/
theorem scene_pass_paired_fresh_dep_waited_witness :
    (happyEnv 2 1).acquireRes = AcquireResult.ok 1 false ∧
    (Renderer.new 2).previous_frame_end = some Future.now ∧
    (Renderer.render (Renderer.new 2) (happyEnv 2 1)).2.2 = Outcome.ok ∧
    (∃ tail, (Renderer.render (Renderer.new 2) (happyEnv 2 1)).2.1 =
        Event.scenePass 1 Future.now :: Event.sceneWait :: tail ∧
      Event.guiDraw 1 (Future.join Future.now (Future.acquire 1)) ∈ tail) :=
  ⟨by decide, by decide, by decide,
    scene_pass_paired_fresh_dep_waited (Renderer.new 2) (happyEnv 2 1) 1 false
      Future.now (by decide) (by decide) (by decide)⟩

/-- Claim C8 (confirmed): a suboptimal acquisition does not abort the
frame: the scene pass still runs, the present of the acquired image is
still submitted (when the final flush succeeds), and the recreate flag is
set at exit so recreation happens before the next frame. -/
theorem suboptimal_still_draws_and_marks_stale (s : RendererState)
    (env : RenderEnv) (i : Nat) (p : Future)
    (hacq : env.acquireRes = AcquireResult.ok i true)
    (hprev : s.previous_frame_end = some p)
    (hfin : env.finishFlushRes = FlushResult.ok)
    (hok : (Renderer.render s env).2.2 = Outcome.ok) :
    (Renderer.render s env).1.recreate_swapchain = true ∧
    ∃ tail, (Renderer.render s env).2.1 =
        Event.scenePass i Future.now :: Event.sceneWait :: tail ∧
      Event.presentEv i ∈ tail := by
  obtain ⟨s1, he, hp1, _⟩ := render_ok_elim s env hok
  rw [he] at hok ⊢
  have hprev1 : s1.previous_frame_end = some p := hp1.trans hprev
  obtain ⟨h1, h2, h3, _⟩ := renderBody_ok_conditions s1 env i true hacq hok
  obtain ⟨_, _, hsub, _, tail, ht, _, hpres⟩ :=
    renderBody_shape s1 env i true p hacq hprev1 h1 h2 h3
  exact ⟨hsub rfl, tail, ht, hpres hfin⟩

/-- Witness for `suboptimal_still_draws_and_marks_stale` on a frame whose
acquisition reports suboptimal but everything else succeeds. -/
theorem suboptimal_still_draws_and_marks_stale_witness :
    ({ happyEnv 2 1 with acquireRes := AcquireResult.ok 1 true } : RenderEnv).acquireRes =
        AcquireResult.ok 1 true ∧
    (Renderer.new 2).previous_frame_end = some Future.now ∧
    ({ happyEnv 2 1 with acquireRes := AcquireResult.ok 1 true } : RenderEnv).finishFlushRes =
        FlushResult.ok ∧
    (Renderer.render (Renderer.new 2)
        { happyEnv 2 1 with acquireRes := AcquireResult.ok 1 true }).2.2 = Outcome.ok ∧
    ((Renderer.render (Renderer.new 2)
        { happyEnv 2 1 with acquireRes := AcquireResult.ok 1 true }).1.recreate_swapchain = true ∧
      ∃ tail, (Renderer.render (Renderer.new 2)
          { happyEnv 2 1 with acquireRes := AcquireResult.ok 1 true }).2.1 =
          Event.scenePass 1 Future.now :: Event.sceneWait :: tail ∧
        Event.presentEv 1 ∈ tail) :=
  ⟨by decide, by decide, by decide, by decide,
    suboptimal_still_draws_and_marks_stale (Renderer.new 2)
      { happyEnv 2 1 with acquireRes := AcquireResult.ok 1 true } 1 Future.now
      (by decide) (by decide) (by decide) (by decide)⟩

/-- Claim C5 (confirmed): across two consecutive successful frames, the
`previous_frame_end` future produced at the end of frame 1 (the
fence-and-flush of the present of the composited image) is exactly the
future consumed (joined with the acquire future) as frame 2's dependency;
and the field is again non-empty at exit of frame 2, so exactly one
carried future is live between frames. -/
theorem previous_frame_end_threading (s : RendererState)
    (env1 env2 : RenderEnv) (p : Future) (i1 i2 : Nat) (b1 b2 : Bool)
    (hprev : s.previous_frame_end = some p)
    (hacq1 : env1.acquireRes = AcquireResult.ok i1 b1)
    (hfin1 : env1.finishFlushRes = FlushResult.ok)
    (hok1 : (Renderer.render s env1).2.2 = Outcome.ok)
    (hacq2 : env2.acquireRes = AcquireResult.ok i2 b2)
    (hok2 : (Renderer.render (Renderer.render s env1).1 env2).2.2 = Outcome.ok) :
    (Renderer.render s env1).1.previous_frame_end =
      some (Future.fenceFlush (Future.presentOn
        (Future.guiDrawF (Future.join p (Future.acquire i1)) i1) i1)) ∧
    Event.guiDraw i2 (Future.join
        (Future.fenceFlush (Future.presentOn
          (Future.guiDrawF (Future.join p (Future.acquire i1)) i1) i1))
        (Future.acquire i2)) ∈
      (Renderer.render (Renderer.render s env1).1 env2).2.1 ∧
    (Renderer.render (Renderer.render s env1).1 env2).1.previous_frame_end.isSome
      = true := by
  obtain ⟨s1, he1, hp1, _⟩ := render_ok_elim s env1 hok1
  rw [he1] at hok1 hok2 ⊢
  have hprev1 : s1.previous_frame_end = some p := hp1.trans hprev
  obtain ⟨ha1, ha2, ha3, _⟩ := renderBody_ok_conditions s1 env1 i1 b1 hacq1 hok1
  obtain ⟨_, _, _, hstore, _⟩ :=
    renderBody_shape s1 env1 i1 b1 p hacq1 hprev1 ha1 ha2 ha3
  have hstored := hstore hfin1
  refine ⟨hstored, ?_, ?_⟩
  · obtain ⟨s2, he2, hp2, _⟩ :=
      render_ok_elim (Renderer.renderBody s1 env1).1 env2 hok2
    rw [he2] at hok2 ⊢
    have hprev2 : s2.previous_frame_end =
        some (Future.fenceFlush (Future.presentOn
          (Future.guiDrawF (Future.join p (Future.acquire i1)) i1) i1)) :=
      hp2.trans hstored
    obtain ⟨hb1, hb2, hb3, _⟩ := renderBody_ok_conditions s2 env2 i2 b2 hacq2 hok2
    obtain ⟨_, _, _, _, tail, ht, hm, _⟩ :=
      renderBody_shape s2 env2 i2 b2 _ hacq2 hprev2 hb1 hb2 hb3
    rw [ht]
    exact List.mem_cons_of_mem _ (List.mem_cons_of_mem _ hm)
  · obtain ⟨s2, he2, hp2, _⟩ :=
      render_ok_elim (Renderer.renderBody s1 env1).1 env2 hok2
    rw [he2] at hok2 ⊢
    have hprev2 : s2.previous_frame_end =
        some (Future.fenceFlush (Future.presentOn
          (Future.guiDrawF (Future.join p (Future.acquire i1)) i1) i1)) :=
      hp2.trans hstored
    obtain ⟨hb1, hb2, hb3, _⟩ := renderBody_ok_conditions s2 env2 i2 b2 hacq2 hok2
    obtain ⟨_, hsome, _, _, _⟩ :=
      renderBody_shape s2 env2 i2 b2 _ hacq2 hprev2 hb1 hb2 hb3
    exact hsome

/-- Witness for `previous_frame_end_threading`: two fully successful
frames on a two-image swapchain, acquiring image 0 then image 1. -/
theorem previous_frame_end_threading_witness :
    (Renderer.new 2).previous_frame_end = some Future.now ∧
    (happyEnv 2 0).acquireRes = AcquireResult.ok 0 false ∧
    (happyEnv 2 0).finishFlushRes = FlushResult.ok ∧
    (Renderer.render (Renderer.new 2) (happyEnv 2 0)).2.2 = Outcome.ok ∧
    (happyEnv 2 1).acquireRes = AcquireResult.ok 1 false ∧
    (Renderer.render (Renderer.render (Renderer.new 2) (happyEnv 2 0)).1
        (happyEnv 2 1)).2.2 = Outcome.ok ∧
    ((Renderer.render (Renderer.new 2) (happyEnv 2 0)).1.previous_frame_end =
      some (Future.fenceFlush (Future.presentOn
        (Future.guiDrawF (Future.join Future.now (Future.acquire 0)) 0) 0)) ∧
    Event.guiDraw 1 (Future.join
        (Future.fenceFlush (Future.presentOn
          (Future.guiDrawF (Future.join Future.now (Future.acquire 0)) 0) 0))
        (Future.acquire 1)) ∈
      (Renderer.render (Renderer.render (Renderer.new 2) (happyEnv 2 0)).1
        (happyEnv 2 1)).2.1 ∧
    (Renderer.render (Renderer.render (Renderer.new 2) (happyEnv 2 0)).1
        (happyEnv 2 1)).1.previous_frame_end.isSome = true) :=
  ⟨by decide, by decide, by decide, by decide, by decide, by decide,
    previous_frame_end_threading (Renderer.new 2) (happyEnv 2 0) (happyEnv 2 1)
      Future.now 0 1 false false (by decide) (by decide) (by decide) (by decide)
      (by decide) (by decide)⟩

/-- Counterexample to claim C1 as stated: a renderer created with 3
images is resized; the next render call recreates the swapchain with 4
images and succeeds, yet the scene-target count is still 3 — the scene
targets are not resynced when the swapchain produces a new image set. -/
theorem scene_count_desync_counterexample :
    (Renderer.render (Renderer.resize (Renderer.new 3)) (happyEnv 4 0)).2.2 =
        Outcome.ok ∧
    (Renderer.render (Renderer.resize (Renderer.new 3)) (happyEnv 4 0)).1.scene_images
        = 3 ∧
    (Renderer.render (Renderer.resize (Renderer.new 3)) (happyEnv 4 0)).1.final_images
        = 4 := by
  decide

/-- Claim C1 (amended): if every swapchain recreation preserves the image
count, the scene-target count equals the swapchain image count after every
render call (given they were equal before).  The code never recreates the
scene targets on a swapchain recreation, so the equality relies on the
count being preserved. -/
theorem scene_count_matches_of_count_preserved (s : RendererState)
    (env : RenderEnv) (h0 : s.scene_images = s.final_images)
    (hpres : ∀ n, env.recreateRes = RecreateResult.ok n → n = s.final_images) :
    (Renderer.render s env).1.scene_images =
      (Renderer.render s env).1.final_images := by
  cases hflag : s.recreate_swapchain with
  | false =>
      rw [render_of_not_stale s env hflag, renderBody_scene_images,
        renderBody_final_images, h0]
  | true =>
      cases hrr : env.recreateRes with
      | ok n =>
          rw [render_of_stale_ok s env n hflag hrr, renderBody_scene_images,
            renderBody_final_images]
          simp only []
          rw [h0]
          exact (hpres n hrr).symm
      | unsupportedDimensions =>
          rw [render_of_stale_unsupported s env hflag hrr,
            renderBody_scene_images, renderBody_final_images, h0]
      | otherErr =>
          unfold Renderer.render Renderer.recreate_swapchain
          rw [hflag, hrr]
          simpa using h0

/-- Witness for `scene_count_matches_of_count_preserved`: a resized
two-image renderer whose recreation yields two images again. -/
theorem scene_count_matches_of_count_preserved_witness :
    (Renderer.resize (Renderer.new 2)).scene_images =
        (Renderer.resize (Renderer.new 2)).final_images ∧
    (∀ n, (happyEnv 2 1).recreateRes = RecreateResult.ok n →
      n = (Renderer.resize (Renderer.new 2)).final_images) ∧
    (Renderer.render (Renderer.resize (Renderer.new 2)) (happyEnv 2 1)).1.scene_images =
      (Renderer.render (Renderer.resize (Renderer.new 2)) (happyEnv 2 1)).1.final_images :=
  ⟨by decide,
    fun n h => by
      injection h with h2
      exact h2.symm,
    scene_count_matches_of_count_preserved (Renderer.resize (Renderer.new 2))
      (happyEnv 2 1) (by decide)
      (fun n h => by
        injection h with h2
        exact h2.symm)⟩

/-- Counterexample to claim C3 as stated: a stale renderer whose
recreation reports unsupported dimensions does not return without drawing
— the call continues, acquires image 0 from the old swapchain, runs the
scene pass and presents, returning normally with a non-empty trace. -/
theorem stale_unsupported_draws_counterexample :
    (Renderer.render (Renderer.resize (Renderer.new 3))
        { happyEnv 3 0 with
          recreateRes := RecreateResult.unsupportedDimensions }).2.2 =
        Outcome.ok ∧
    (Renderer.render (Renderer.resize (Renderer.new 3))
        { happyEnv 3 0 with
          recreateRes := RecreateResult.unsupportedDimensions }).1.recreate_swapchain
        = true ∧
    Event.scenePass 0 Future.now ∈
      (Renderer.render (Renderer.resize (Renderer.new 3))
        { happyEnv 3 0 with
          recreateRes := RecreateResult.unsupportedDimensions }).2.1 := by
  decide

/-- Claim C3 (amended): when a stale renderer's recreation signals "try
again later", the recreation is skipped with the state unchanged (no
error, no panic from the signal) and the renderer remains stale at exit,
so the next frame retries; the call does not return early, however — it
proceeds to image acquisition exactly as if the recreation step had not
run, and only draws nothing if that acquisition itself reports the
swapchain out of date. -/
theorem stale_unsupported_remains_stale_and_proceeds (s : RendererState)
    (env : RenderEnv) (h1 : s.recreate_swapchain = true)
    (h2 : env.recreateRes = RecreateResult.unsupportedDimensions) :
    Renderer.render s env = Renderer.renderBody s env ∧
    (Renderer.render s env).1.recreate_swapchain = true ∧
    (env.acquireRes = AcquireResult.outOfDate →
      (Renderer.render s env).2.1 = []) := by
  refine ⟨render_of_stale_unsupported s env h1 h2, ?_, ?_⟩
  · rw [render_of_stale_unsupported s env h1 h2]
    exact renderBody_keeps_stale s env h1
  · intro hacq
    rw [render_of_stale_unsupported s env h1 h2]
    simp [Renderer.renderBody, hacq]

/-- Witness for `stale_unsupported_remains_stale_and_proceeds` at a
concrete stale renderer. -/
theorem stale_unsupported_remains_stale_and_proceeds_witness :
    (Renderer.resize (Renderer.new 3)).recreate_swapchain = true ∧
    ({ happyEnv 3 0 with
        recreateRes := RecreateResult.unsupportedDimensions } : RenderEnv).recreateRes =
      RecreateResult.unsupportedDimensions ∧
    (Renderer.render (Renderer.resize (Renderer.new 3))
        { happyEnv 3 0 with
          recreateRes := RecreateResult.unsupportedDimensions } =
      Renderer.renderBody (Renderer.resize (Renderer.new 3))
        { happyEnv 3 0 with
          recreateRes := RecreateResult.unsupportedDimensions } ∧
    (Renderer.render (Renderer.resize (Renderer.new 3))
        { happyEnv 3 0 with
          recreateRes := RecreateResult.unsupportedDimensions }).1.recreate_swapchain
        = true ∧
    (({ happyEnv 3 0 with
        recreateRes := RecreateResult.unsupportedDimensions } : RenderEnv).acquireRes =
        AcquireResult.outOfDate →
      (Renderer.render (Renderer.resize (Renderer.new 3))
        { happyEnv 3 0 with
          recreateRes := RecreateResult.unsupportedDimensions }).2.1 = [])) :=
  ⟨by decide, by decide,
    stale_unsupported_remains_stale_and_proceeds (Renderer.resize (Renderer.new 3))
      { happyEnv 3 0 with recreateRes := RecreateResult.unsupportedDimensions }
      (by decide) (by decide)⟩

/-- Counterexample to claim C4 as stated: when the scene pass's
fence-signal-and-flush fails, the process panics (the code calls
`expect`), with nothing logged and the frame not proceeding — the trace
stops at the scene pass. -/
theorem scene_flush_abort_counterexample :
    (Renderer.render (Renderer.new 1)
        { happyEnv 1 0 with sceneFlushOk := false }).2.2 = Outcome.crash ∧
    (Renderer.render (Renderer.new 1)
        { happyEnv 1 0 with sceneFlushOk := false }).2.1 =
      [Event.scenePass 0 Future.now] := by
  decide

/-- Claim C4 (amended): in the scene pass, a failure of
`then_signal_fence_and_flush` aborts the process (it is wrapped in
`expect`, not logged); it is a failure of the subsequent `wait` on the
signaled fence that is only logged, after which the frame proceeds. -/
theorem scene_flush_panics_wait_logged (s : RendererState) (env : RenderEnv)
    (h : s.image_num < s.scene_images) :
    (env.sceneFlushOk = false →
      (Renderer.render_scene s env).2 = Outcome.crash ∧
      (Renderer.render_scene s env).1 = [Event.scenePass s.image_num Future.now]) ∧
    (env.sceneFlushOk = true → env.sceneWaitOk = false →
      (Renderer.render_scene s env).2 = Outcome.ok ∧
      (Renderer.render_scene s env).1 =
        [Event.scenePass s.image_num Future.now, Event.sceneWait,
          Event.logged LogMsg.sceneWaitErr]) := by
  constructor
  · intro hf
    simp [Renderer.render_scene, h, hf]
  · intro hf hw
    simp [Renderer.render_scene, h, hf, hw]

/-- Witness for `scene_flush_panics_wait_logged`: a one-image renderer
whose scene-pass wait fails while the flush succeeds. -/
theorem scene_flush_panics_wait_logged_witness :
    (Renderer.new 1).image_num < (Renderer.new 1).scene_images ∧
    ((({ happyEnv 1 0 with sceneWaitOk := false } : RenderEnv).sceneFlushOk = false →
      (Renderer.render_scene (Renderer.new 1)
          { happyEnv 1 0 with sceneWaitOk := false }).2 = Outcome.crash ∧
      (Renderer.render_scene (Renderer.new 1)
          { happyEnv 1 0 with sceneWaitOk := false }).1 =
        [Event.scenePass (Renderer.new 1).image_num Future.now]) ∧
    (({ happyEnv 1 0 with sceneWaitOk := false } : RenderEnv).sceneFlushOk = true →
      ({ happyEnv 1 0 with sceneWaitOk := false } : RenderEnv).sceneWaitOk = false →
      (Renderer.render_scene (Renderer.new 1)
          { happyEnv 1 0 with sceneWaitOk := false }).2 = Outcome.ok ∧
      (Renderer.render_scene (Renderer.new 1)
          { happyEnv 1 0 with sceneWaitOk := false }).1 =
        [Event.scenePass (Renderer.new 1).image_num Future.now, Event.sceneWait,
          Event.logged LogMsg.sceneWaitErr])) :=
  ⟨by decide,
    scene_flush_panics_wait_logged (Renderer.new 1)
      { happyEnv 1 0 with sceneWaitOk := false } (by decide)⟩

/-- Counterexample to claim C10 as stated: a renderer created with 3
images (3 scene targets) is resized; recreation yields a 4-image
swapchain and acquisition returns index 3 — valid for the new swapchain
(3 < 4) — but `scene_images[3]` is out of bounds (the scene-target list
still has 3 entries, never recreated), so the render call panics before
any drawing. -/
theorem acquired_index_oob_counterexample :
    (Renderer.recreate_swapchain (Renderer.resize (Renderer.new 3))
        (RecreateResult.ok 4)).1.final_images = 4 ∧
    (Renderer.render (Renderer.resize (Renderer.new 3)) (happyEnv 4 3)).2.2 =
        Outcome.crash ∧
    (Renderer.render (Renderer.resize (Renderer.new 3)) (happyEnv 4 3)).2.1 = [] := by
  decide

/-- Claim C10 (amended): the acquired index stays in bounds for both
lists provided every swapchain recreation preserves the image count (so
the never-recreated scene-target list keeps matching): under that
proviso, with the acquired index valid for the current swapchain and the
entry counts equal, the render call hits no out-of-bounds panic — it
returns normally whenever the remaining panic sources (fatal recreation
error, scene-flush failure, empty carried future) are absent. -/
theorem acquired_index_in_bounds_of_count_preserved (s : RendererState)
    (env : RenderEnv) (i : Nat) (sub : Bool)
    (h0 : s.scene_images = s.final_images)
    (hpres : ∀ n, env.recreateRes = RecreateResult.ok n → n = s.final_images)
    (hrec : s.recreate_swapchain = true → env.recreateRes ≠ RecreateResult.otherErr)
    (hacq : env.acquireRes = AcquireResult.ok i sub)
    (hvalid : i < s.final_images)
    (hflush : env.sceneFlushOk = true)
    (hprev : s.previous_frame_end.isSome = true) :
    i < s.scene_images ∧ (Renderer.render s env).2.2 = Outcome.ok := by
  obtain ⟨p, hp⟩ := Option.isSome_iff_exists.mp hprev
  refine ⟨h0 ▸ hvalid, ?_⟩
  cases hflag : s.recreate_swapchain with
  | false =>
      rw [render_of_not_stale s env hflag]
      exact (renderBody_shape s env i sub p hacq hp (h0 ▸ hvalid) hvalid hflush).1
  | true =>
      cases hrr : env.recreateRes with
      | ok n =>
          rw [render_of_stale_ok s env n hflag hrr]
          have hn : n = s.final_images := hpres n hrr
          exact (renderBody_shape
            { s with final_images := n, recreate_swapchain := false } env i sub p
            hacq hp (by simpa using h0 ▸ hvalid) (by simpa [hn] using hvalid)
            hflush).1
      | unsupportedDimensions =>
          rw [render_of_stale_unsupported s env hflag hrr]
          exact (renderBody_shape s env i sub p hacq hp (h0 ▸ hvalid) hvalid hflush).1
      | otherErr => exact absurd hrr (hrec hflag)

/-- Witness for `acquired_index_in_bounds_of_count_preserved`: a resized
two-image renderer whose recreation preserves the count and whose
acquisition returns index 1. -/
theorem acquired_index_in_bounds_of_count_preserved_witness :
    (Renderer.resize (Renderer.new 2)).scene_images =
        (Renderer.resize (Renderer.new 2)).final_images ∧
    (∀ n, (happyEnv 2 1).recreateRes = RecreateResult.ok n →
      n = (Renderer.resize (Renderer.new 2)).final_images) ∧
    ((Renderer.resize (Renderer.new 2)).recreate_swapchain = true →
      (happyEnv 2 1).recreateRes ≠ RecreateResult.otherErr) ∧
    (happyEnv 2 1).acquireRes = AcquireResult.ok 1 false ∧
    1 < (Renderer.resize (Renderer.new 2)).final_images ∧
    (happyEnv 2 1).sceneFlushOk = true ∧
    (Renderer.resize (Renderer.new 2)).previous_frame_end.isSome = true ∧
    (1 < (Renderer.resize (Renderer.new 2)).scene_images ∧
      (Renderer.render (Renderer.resize (Renderer.new 2)) (happyEnv 2 1)).2.2 =
        Outcome.ok) :=
  ⟨by decide,
    fun n h => by
      injection h with h2
      exact h2.symm,
    by decide, by decide, by decide, by decide, by decide,
    acquired_index_in_bounds_of_count_preserved (Renderer.resize (Renderer.new 2))
      (happyEnv 2 1) 1 false (by decide)
      (fun n h => by
        injection h with h2
        exact h2.symm)
      (by decide) (by decide) (by decide) (by decide) (by decide)⟩
